import Mathlib

/-!
Verification development for the bedrock preprocessing scripts
(`src/preprocess/mod16a2gf_hdf2global_nc_500m.py` and `src/preprocess/pre_ET.py`).

The Python scripts are embedded shallowly: pure helpers become Lean
functions, the per-timestamp pipeline becomes an explicit state-passing
function over an abstract filesystem, external tools are abstracted by an
environment recording their exit codes and outputs, and CPython's
`datetime` ordinal arithmetic is ported directly (proleptic Gregorian
calendar, `MINYEAR = 1`, `MAXYEAR = 9999`).
-/

namespace Bedrock

/-! ### Calendar arithmetic (CPython `datetime` core)

`datetime(year, 1, 1) + timedelta(days = doy - 1)` is, inside CPython,
ordinal arithmetic on the proleptic Gregorian calendar: `toordinal` of
Jan 1 plus the day delta, converted back with `_ord2ymd`, with
`ValueError` on a year outside `[1, 9999]` and `OverflowError` when the
resulting ordinal leaves `[1, toordinal(9999-12-31)]`. -/

/-- Days in each month of a non-leap year, month 1 = January. -/
def DAYS_IN_MONTH : List Nat := [31, 28, 31, 30, 31, 30, 31, 31, 30, 31, 30, 31]

/-- Days in month `m` (1-indexed) of a non-leap year. -/
def daysInMonthTab (m : Nat) : Nat := DAYS_IN_MONTH.getD (m - 1) 0

/-- Days before month `m` (1-indexed) in a non-leap year. -/
def DAYS_BEFORE_MONTH : List Nat := [0, 31, 59, 90, 120, 151, 181, 212, 243, 273, 304, 334]

/-- Accessor for `DAYS_BEFORE_MONTH`, month 1-indexed. -/
def daysBeforeMonth (m : Nat) : Nat := DAYS_BEFORE_MONTH.getD (m - 1) 0

/-- Gregorian leap-year rule, as in CPython `_is_leap`. -/
def isLeapYear (y : Nat) : Bool := y % 4 == 0 && (y % 100 != 0 || y % 400 == 0)

/-- Number of days before January 1 of year `y` (CPython `_days_before_year`). -/
def daysBeforeYear (y : Nat) : Nat :=
  365 * (y - 1) + (y - 1) / 4 + (y - 1) / 400 - (y - 1) / 100

/-- `date(y, 1, 1).toordinal()`. -/
def jan1Ordinal (y : Nat) : Nat := daysBeforeYear y + 1

/-- `date(9999, 12, 31).toordinal()`, CPython's `_MAXORDINAL`. -/
def maxOrdinal : Nat := daysBeforeYear 10000

/-- Month and day part of CPython `_ord2ymd`, given the divmod chain results. -/
def monthDayOf (n4 n100 n1 nr : Nat) : Nat × Nat :=
  let leap : Bool := n1 == 3 && (n4 != 24 || n100 == 3)
  let month := (nr + 50) / 32
  let preceding := daysBeforeMonth month + (if 2 < month then (if leap then 1 else 0) else 0)
  if nr < preceding then
    let m2 := month - 1
    let preceding2 := preceding - (daysInMonthTab m2 + (if m2 = 2 then (if leap then 1 else 0) else 0))
    (m2, nr - preceding2 + 1)
  else
    (month, nr - preceding + 1)

/-- CPython `_ord2ymd`: ordinal (1 = 0001-01-01) to `(year, month, day)`. -/
def ord2ymd (N : Nat) : Nat × Nat × Nat :=
  let n := N - 1
  let n400 := n / 146097
  let r400 := n % 146097
  let n100 := r400 / 36524
  let r100 := r400 % 36524
  let n4 := r100 / 1461
  let r4 := r100 % 1461
  let n1 := r4 / 365
  let nr := r4 % 365
  let year := n400 * 400 + n100 * 100 + n4 * 4 + n1 + 1
  if n1 = 4 ∨ n100 = 4 then (year - 1, 12, 31)
  else (year, monthDayOf n4 n100 n1 nr)

/-- Days in month `m` of year `y`, leap Februaries included.  Used only by
the independent day-successor specification `nextDay`. -/
def daysInMonthOfYear (y m : Nat) : Nat :=
  if m = 2 ∧ isLeapYear y then 29 else daysInMonthTab m

/-- Specification-side calendar successor: the day after `(y, m, d)`.
Independent of the ordinal algorithms above; used to state that the
code's date arithmetic advances the calendar one day at a time. -/
def nextDay : Nat × Nat × Nat → Nat × Nat × Nat
  | (y, m, d) =>
    if d < daysInMonthOfYear y m then (y, m, d + 1)
    else if m < 12 then (y, m + 1, 1)
    else (y + 1, 1, 1)

/-- Zero-pad to two digits (`strftime` `%m`, `%d`). -/
def pad2 (n : Nat) : String := if n < 10 then "0" ++ toString n else toString n

/-- Zero-pad to three digits (Python `f"{doy:03d}"`). -/
def pad3 (n : Nat) : String :=
  if n < 10 then "00" ++ toString n
  else if n < 100 then "0" ++ toString n
  else toString n

/-- Zero-pad to four digits (`strftime` `%Y`). -/
def pad4 (n : Nat) : String :=
  if n < 10 then "000" ++ toString n
  else if n < 100 then "00" ++ toString n
  else if n < 1000 then "0" ++ toString n
  else toString n

/-- `date.strftime("%Y-%m-%d")`. -/
def ymdString : Nat × Nat × Nat → String
  | (y, m, d) => pad4 y ++ "-" ++ pad2 m ++ "-" ++ pad2 d

/-! ### Filename parsing

Both scripts match granule names against the same regular expression
`MOD16A2GF\.A(\d{4})(\d{3})\.(h\d{2}v\d{2})\.(\d{3})\.(\d+)\.hdf$`
(`parse_mod16_name` in the 500 m script, `get_hdf_info` in `pre_ET.py`;
the greedy `\d+` cannot backtrack into `\.hdf` because a digit never
matches `.`, so a deterministic maximal-munch matcher is equivalent). -/

/-- Match a literal character sequence, returning the rest of the input. -/
def stripLit : List Char → List Char → Option (List Char)
  | [], cs => some cs
  | _ :: _, [] => none
  | l :: ls, c :: cs => if c = l then stripLit ls cs else none

/-- Match exactly `n` decimal digits. -/
def takeExactDigits : Nat → List Char → Option (List Char × List Char)
  | 0, cs => some ([], cs)
  | _ + 1, [] => none
  | n + 1, c :: cs =>
    if c.isDigit then (takeExactDigits n cs).map (fun p => (c :: p.1, p.2)) else none

/-- Match one or more decimal digits, maximal munch (`\d+`). -/
def takeDigits1 (cs : List Char) : Option (List Char × List Char) :=
  let ds := cs.takeWhile Char.isDigit
  if ds.isEmpty then none else some (ds, cs.dropWhile Char.isDigit)

/-- Decimal value of a digit string. -/
def digitsVal (ds : List Char) : Nat := ds.foldl (fun a c => a * 10 + (c.toNat - 48)) 0

/-- The capture groups of the granule-name pattern. -/
structure RawFields where
  year : Nat
  doy : Nat
  tile : String
  col : String
  prod : String
deriving DecidableEq, Repr

/-- The fixed granule-name pattern of both scripts, as a deterministic
matcher over the characters of the file name (the trailing `$` is
end-of-input; file names contain no newline). -/
def matchPAT (name : String) : Option RawFields := do
  let cs := name.data
  let cs ← stripLit "MOD16A2GF.A".data cs
  let (yds, cs) ← takeExactDigits 4 cs
  let (dds, cs) ← takeExactDigits 3 cs
  let cs ← stripLit ".h".data cs
  let (h1, cs) ← takeExactDigits 2 cs
  let cs ← stripLit "v".data cs
  let (h2, cs) ← takeExactDigits 2 cs
  let cs ← stripLit ".".data cs
  let (cds, cs) ← takeExactDigits 3 cs
  let cs ← stripLit ".".data cs
  let (pds, cs) ← takeDigits1 cs
  let cs ← stripLit ".hdf".data cs
  if cs.isEmpty then
    some { year := digitsVal yds, doy := digitsVal dds,
           tile := String.mk ('h' :: (h1 ++ 'v' :: h2)),
           col := String.mk cds, prod := String.mk pds }
  else none

/-- The dictionary returned by `parse_mod16_name` / `get_hdf_info`. -/
structure GranuleInfo where
  path : String
  year : Nat
  doy : Nat
  dateYmd : Nat × Nat × Nat
  date : String
  datestr : String
  tile : String
  collection : String
  production : String
deriving DecidableEq, Repr

/-- Outcome of calling the parser on one file name: no structural match
(the function returns `None`), a raised `ValueError`/`OverflowError` from
the date arithmetic, or the parsed record. -/
inductive ParseOutcome where
  | noMatch
  | dateError
  | ok (info : GranuleInfo)
deriving DecidableEq, Repr

/-- Build the result dictionary from matched fields and the ordinal of the
derived date (`datetime(year,1,1) + timedelta(days=doy-1)`). -/
def mkInfo (path : String) (f : RawFields) (o : Nat) : GranuleInfo :=
  let ymd := ord2ymd o
  { path := path, year := f.year, doy := f.doy, dateYmd := ymd,
    date := ymdString ymd,
    datestr := "A" ++ toString f.year ++ pad3 f.doy,
    tile := f.tile, collection := f.col, production := f.prod }

/-- `parse_mod16_name` (identical logic in `get_hdf_info`): match the
pattern, then derive the date.  `datetime(year, 1, 1)` raises for a year
outside `[1, 9999]`; the `timedelta` addition raises when the resulting
ordinal `daysBeforeYear year + doy` leaves `[1, maxOrdinal]`. -/
def parse_mod16_name (path name : String) : ParseOutcome :=
  match matchPAT name with
  | none => .noMatch
  | some f =>
    if f.year < 1 ∨ 9999 < f.year then .dateError
    else
      let o := daysBeforeYear f.year + f.doy
      if o < 1 ∨ maxOrdinal < o then .dateError
      else .ok (mkInfo path f o)

/-- Derived date string of a successfully parsed name, for concrete checks. -/
def parsedDate (path name : String) : Option String :=
  match parse_mod16_name path name with
  | .ok i => some i.date
  | _ => none

/-- Derived `(year, month, day)` of a successfully parsed name. -/
def parsedYmd (path name : String) : Option (Nat × Nat × Nat) :=
  match parse_mod16_name path name with
  | .ok i => some i.dateYmd
  | _ => none

/-! ### Datasets and the fill/scale post-pass

A NetCDF variable is modelled by the four attribute slots the scripts
consult plus its raw pixel values; numeric values are embedded as exact
rationals.  `xr.open_dataset` output is a list of named variables. -/

/-- The one subdataset variable both scripts process. -/
def SDS_NAME : String := "ET_500m"

/-- Hardcoded fallback scale factor `0.1` (module constant `FALLBACK_SCALE`,
and the literal default in `pre_ET.py`). -/
def FALLBACK_SCALE : ℚ := 1 / 10

/-- Hardcoded fallback no-data constant (module constant `FALLBACK_FILL`,
and the literal default in `pre_ET.py`). -/
def FALLBACK_FILL : ℚ := 32767

/-- One variable of an opened NetCDF file: attribute slots and raw data. -/
structure DataArray where
  attrs_scale : Option ℚ
  attrs_fill : Option ℚ
  attrs_missing : Option ℚ
  enc_fill : Option ℚ
  data : List ℚ
deriving DecidableEq, Repr

/-- An opened NetCDF dataset: named variables. -/
structure Dataset where
  vars : List (String × DataArray)
deriving DecidableEq, Repr

/-- Variable lookup (`ds[name]` / `name in ds`). -/
def Dataset.find (ds : Dataset) (name : String) : Option DataArray :=
  (ds.vars.find? (fun p => p.1 == name)).map Prod.snd

/-- Fill-value resolution of `apply_fill_and_scale` in
`mod16a2gf_hdf2global_nc_500m.py`: a cascade of `is None` checks, so the
first **present** candidate wins, whatever its value. -/
def resolveFill_mod16 (af am ef : Option ℚ) : ℚ :=
  match af with
  | some v => v
  | none =>
    match am with
    | some v => v
    | none =>
      match ef with
      | some v => v
      | none => FALLBACK_FILL

/-- Python `x or y` on an optional number: `None` and `0` are falsy. -/
def pyOrQ : Option ℚ → ℚ → ℚ
  | some v, y => if v = 0 then y else v
  | none, y => y

/-- Fill-value resolution of `process_one_date` in `pre_ET.py`: a Python
`or`-chain, so the first **truthy** candidate wins. -/
def resolveFill_preET (af am ef : Option ℚ) : ℚ :=
  pyOrQ af (pyOrQ am (pyOrQ ef 32767))

/-- One pixel of `da.where(da != fill).astype("float32") * float(scale)`:
the fill value becomes NaN (modelled as `none`), everything else is
scaled. -/
def maskPixel (fill scale v : ℚ) : Option ℚ :=
  if v = fill then none else some (v * scale)

/-- The variable written to the final output file: masked/scaled data plus
the attributes recorded by the scripts (`scale_applied`, and the resolved
fill value used for masking). -/
structure OutVar where
  data : List (Option ℚ)
  scale_applied : ℚ
  fill_used : ℚ
deriving DecidableEq, Repr

/-- `apply_fill_and_scale` of `mod16a2gf_hdf2global_nc_500m.py`: raises
`KeyError` naming the variable when it is absent, otherwise resolves scale
and fill and masks/scales the data. -/
def apply_fill_and_scale (ds : Dataset) : Except String OutVar :=
  match ds.find SDS_NAME with
  | none =>
    .error ("Cannot find variable " ++ SDS_NAME ++ ". Available: " ++
      toString (ds.vars.map Prod.fst))
  | some da =>
    let scale := da.attrs_scale.getD FALLBACK_SCALE
    let fill := resolveFill_mod16 da.attrs_fill da.attrs_missing da.enc_fill
    .ok { data := da.data.map (maskPixel fill scale),
          scale_applied := scale, fill_used := fill }

/-- Step 4 of `process_one_date` in `pre_ET.py`: `dataset["ET_500m"]`
raises `KeyError('ET_500m')` when absent; fill resolution is the truthy
`or`-chain. -/
def apply_fill_and_scale_preET (ds : Dataset) : Except String OutVar :=
  match ds.find SDS_NAME with
  | none => .error ("KeyError: " ++ SDS_NAME)
  | some da =>
    let scale := da.attrs_scale.getD FALLBACK_SCALE
    let fill := resolveFill_preET da.attrs_fill da.attrs_missing da.enc_fill
    .ok { data := da.data.map (maskPixel fill scale),
          scale_applied := scale, fill_used := fill }

/-! ### Abstract filesystem and external-tool environment -/

/-- Contents of a file in the abstract filesystem. -/
inductive FileContent where
  | blob (tag : Nat)
  | listing (entries : List String)
  | ncData (ds : Dataset)
  | physData (o : OutVar)
deriving DecidableEq, Repr

/-- Filesystem state: files with contents, and the set of directories. -/
structure FS where
  files : List (String × FileContent)
  dirs : List String
deriving DecidableEq, Repr

/-- Look a file up by path. -/
def FS.lookupFile (fs : FS) (p : String) : Option FileContent :=
  (fs.files.find? (fun e => e.1 == p)).map Prod.snd

/-- Create or overwrite a file. -/
def FS.writeFile (fs : FS) (p : String) (c : FileContent) : FS :=
  { fs with files := (p, c) :: fs.files.filter (fun e => e.1 != p) }

/-- Delete a file (`unlink(missing_ok=True)`). -/
def FS.removeFile (fs : FS) (p : String) : FS :=
  { fs with files := fs.files.filter (fun e => e.1 != p) }

/-- `mkdir(parents=True, exist_ok=True)`. -/
def FS.mkdir (fs : FS) (p : String) : FS :=
  { fs with dirs := if fs.dirs.contains p then fs.dirs else p :: fs.dirs }

/-- `rmdir()` on a temp directory (modelled as removing the entry). -/
def FS.rmdir (fs : FS) (p : String) : FS :=
  { fs with dirs := fs.dirs.filter (fun d => d != p) }

/-- Behaviour of the external tools and of cleanup for one Work Unit:
exit codes, the opaque payloads the tools produce, the dataset readable
from the reprojected NetCDF, and whether cleanup raises. -/
structure ToolEnv where
  vrtExit : Int
  translateExit : Int
  warpExit : Int
  vrtContent : Nat
  sinuContent : Nat
  warpDataset : Dataset
  cleanupFails : Bool
deriving DecidableEq, Repr

/-- Outcome of one Work Unit: the skip message, the success message, or a
propagated exception rendered as a message. -/
inductive UnitOutcome where
  | skipped (msg : String)
  | ok (msg : String)
  | failed (msg : String)
deriving DecidableEq, Repr

/-- Trace of one pipeline invocation: outcome, the external commands run
in order, and the resulting filesystem. -/
structure RunTrace where
  outcome : UnitOutcome
  cmds : List (List String)
  fs : FS
deriving DecidableEq, Repr

/-- `sds_path`: GDAL subdataset reference for one granule (full path). -/
def sds_path (hdf : String) : String :=
  "HDF4_EOS:EOS_GRID:\"" ++ hdf ++ "\":MOD_Grid_MOD16A2:ET_500m"

/-- Split a character list at `/` separators. -/
def splitOnSlash : List Char → List (List Char)
  | [] => [[]]
  | c :: cs =>
    match splitOnSlash cs with
    | [] => [[c]]
    | h :: t => if c = '/' then [] :: h :: t else (c :: h) :: t

/-- Last path component (`Path(p).name`). -/
def baseName (p : String) : String := String.mk ((splitOnSlash p.data).getLastD [])

/-- All components but the last (`Path(p).parent`; for a one-component
path Python yields `"."`, which no pipeline here feeds back in). -/
def parentDir (p : String) : String :=
  String.intercalate "/" (((splitOnSlash p.data).dropLast).map String.mk)

/-- `get_gdal_hdf_path` of `pre_ET.py`: subdataset reference built from
the file *name* only. -/
def get_gdal_hdf_path (hdf : String) : String :=
  "HDF4_EOS:EOS_GRID:\"" ++ baseName hdf ++ "\":MOD_Grid_MOD16A2:ET_500m"

/-- Character-list prefix test. -/
def listIsPre : List Char → List Char → Bool
  | [], _ => true
  | _ :: _, [] => false
  | a :: as, b :: bs => a == b && listIsPre as bs

/-- `Path(p).relative_to(base)` (string-prefix model; raises `ValueError`,
here `none`, when `p` is not under `base`). -/
def relativeTo (p base : String) : Option String :=
  if listIsPre (base ++ "/").data p.data then
    some (String.mk (p.data.drop (base.data.length + 1)))
  else none

/-! ### The per-timestamp pipelines -/

/-- Final analysis-ready output path of the 500 m script. -/
def out_phys_path (out_dir datestr : String) : String :=
  out_dir ++ "/MOD16A2GF_" ++ datestr ++ "_ET_500m_global_epsg4326_phys.nc"

/-- Intermediate warped output path of the 500 m script. -/
def out_raw_path (out_dir datestr : String) : String :=
  out_dir ++ "/MOD16A2GF_" ++ datestr ++ "_ET_500m_global_epsg4326_raw.nc"

/-- Sinusoidal VRT path of the 500 m script. -/
def vrt_sinu_path (tmp_root datestr : String) : String :=
  tmp_root ++ "/" ++ datestr ++ "/" ++ datestr ++ "_ET_500m_sinu.vrt"

/-- Sinusoidal NetCDF path of the 500 m script. -/
def nc_sinu_path (tmp_root datestr : String) : String :=
  tmp_root ++ "/" ++ datestr ++ "/" ++ datestr ++ "_ET_500m_sinu.nc"

/-- Raw (warped, unscaled) output path of `pre_ET.py`. -/
def preET_raw_path (output_dir datestr : String) : String :=
  output_dir ++ "/MOD16A2GF_" ++ datestr ++ "_ET_500m_0p05deg_raw.nc"

/-- Final output path of `pre_ET.py`. -/
def preET_final_path (output_dir datestr : String) : String :=
  output_dir ++ "/MOD16A2GF_" ++ datestr ++ "_ET_500m_0p05deg_phys.nc"

/-- Input file-list path of `pre_ET.py`. -/
def preET_list_path (temp_root datestr : String) : String :=
  temp_root ++ "/" ++ datestr ++ "/file_list.txt"

/-- VRT path of `pre_ET.py`. -/
def preET_vrt_path (temp_root datestr : String) : String :=
  temp_root ++ "/" ++ datestr ++ "/" ++ datestr ++ "_ET_500m.vrt"

/-- `process_one_datestr` of `mod16a2gf_hdf2global_nc_500m.py`: skip-check,
mosaic (`gdalbuildvrt -resolution highest`), materialize
(`gdal_translate`), reproject (`gdalwarp -r bilinear`), fill/scale pass,
best-effort cleanup.  A non-zero exit of any tool (`subprocess.run(...,
check=True)`) raises `CalledProcessError` and aborts the unit. -/
def process_one_datestr (env : ToolEnv) (datestr : String) (tilePaths : List String)
    (out_dir tmp_root : String) (fs0 : FS) : RunTrace :=
  let fs := (fs0.mkdir out_dir).mkdir tmp_root
  let out_phys := out_phys_path out_dir datestr
  if (fs.lookupFile out_phys).isSome then
    { outcome := .skipped ("[SKIP] " ++ datestr ++ " phys exists"), cmds := [], fs := fs }
  else
    let out_warp := out_raw_path out_dir datestr
    let tmp_dir := tmp_root ++ "/" ++ datestr
    let fs := fs.mkdir tmp_dir
    let vrt_sinu := vrt_sinu_path tmp_root datestr
    let nc_sinu := nc_sinu_path tmp_root datestr
    let cmd_vrt := ["gdalbuildvrt", "-overwrite", "-resolution", "highest", vrt_sinu] ++
      tilePaths.map sds_path
    if env.vrtExit ≠ 0 then
      { outcome := .failed "CalledProcessError: gdalbuildvrt", cmds := [cmd_vrt], fs := fs }
    else
      let fs := fs.writeFile vrt_sinu (.blob env.vrtContent)
      let cmd_nc := ["gdal_translate", "-of", "netCDF", "-ot", "Float32", vrt_sinu, nc_sinu,
        "-co", "FORMAT=NC4", "-co", "COMPRESS=DEFLATE", "-co", "ZLEVEL=1"]
      if env.translateExit ≠ 0 then
        { outcome := .failed "CalledProcessError: gdal_translate", cmds := [cmd_vrt, cmd_nc],
          fs := fs }
      else
        let fs := fs.writeFile nc_sinu (.blob env.sinuContent)
        let cmd_warp := ["gdalwarp", "-overwrite", "-t_srs", "EPSG:4326",
          "-te", "-180", "-90", "180", "90", "-tr", "0.005", "0.005", "-tap",
          "-r", "bilinear", "-multi", "-wo", "NUM_THREADS=4", "-ot", "Float32",
          "-of", "netCDF", nc_sinu, out_warp,
          "-co", "FORMAT=NC4", "-co", "COMPRESS=DEFLATE", "-co", "ZLEVEL=1"]
        if env.warpExit ≠ 0 then
          { outcome := .failed "CalledProcessError: gdalwarp",
            cmds := [cmd_vrt, cmd_nc, cmd_warp], fs := fs }
        else
          let fs := fs.writeFile out_warp (.ncData env.warpDataset)
          match apply_fill_and_scale env.warpDataset with
          | .error e =>
            { outcome := .failed e, cmds := [cmd_vrt, cmd_nc, cmd_warp], fs := fs }
          | .ok outv =>
            let fs := fs.writeFile out_phys (.physData outv)
            let fs := if env.cleanupFails then fs
                      else ((fs.removeFile vrt_sinu).removeFile nc_sinu).rmdir tmp_dir
            { outcome := .ok ("[OK] " ++ datestr ++ " -> " ++ baseName out_phys),
              cmds := [cmd_vrt, cmd_nc, cmd_warp], fs := fs }

/-- `process_one_date` of `pre_ET.py`: per-unit temp dir is created before
the skip-check; the file list is written before the mosaic; the mosaic
command uses `-input_file_list` (no resolution option); reprojection uses
`-r average` at 0.05°; then the fill/scale pass and best-effort cleanup.
`Path.relative_to` raises `ValueError` when the temp dir is not under the
granule directory. -/
def process_one_date (env : ToolEnv) (datestr : String) (tilePaths : List String)
    (output_dir temp_root : String) (fs0 : FS) : RunTrace :=
  let temp_dir := temp_root ++ "/" ++ datestr
  let fs := (fs0.mkdir output_dir).mkdir temp_dir
  let raw_output := preET_raw_path output_dir datestr
  let final_output := preET_final_path output_dir datestr
  if (fs.lookupFile final_output).isSome then
    { outcome := .skipped ("[SKIP] " ++ datestr), cmds := [], fs := fs }
  else
    match tilePaths with
    | [] =>
      { outcome := .failed "IndexError: single positional indexer is out-of-bounds",
        cmds := [], fs := fs }
    | p0 :: _ =>
      let raw_data_dir := parentDir p0
      let input_list := preET_list_path temp_root datestr
      let fs := fs.writeFile input_list (.listing (tilePaths.map get_gdal_hdf_path))
      let vrt_file := preET_vrt_path temp_root datestr
      match relativeTo input_list raw_data_dir, relativeTo vrt_file raw_data_dir with
      | some relList, some relVrt =>
        let cmd_vrt := ["gdalbuildvrt", "-overwrite", "-input_file_list", relList, relVrt]
        if env.vrtExit ≠ 0 then
          { outcome := .failed "CalledProcessError: gdalbuildvrt", cmds := [cmd_vrt], fs := fs }
        else
          let fs := fs.writeFile vrt_file (.blob env.vrtContent)
          let cmd_warp := ["gdalwarp", "-overwrite", "-t_srs", "EPSG:4326",
            "-te", "-180", "-90", "180", "90", "-tr", "0.05", "0.05", "-tap",
            "-r", "average", "-multi", "-wo", "NUM_THREADS=4", "-ot", "Float32",
            "-of", "netCDF", vrt_file, raw_output,
            "-co", "FORMAT=NC4", "-co", "COMPRESS=DEFLATE", "-co", "ZLEVEL=3"]
          if env.warpExit ≠ 0 then
            { outcome := .failed "CalledProcessError: gdalwarp", cmds := [cmd_vrt, cmd_warp],
              fs := fs }
          else
            let fs := fs.writeFile raw_output (.ncData env.warpDataset)
            match apply_fill_and_scale_preET env.warpDataset with
            | .error e => { outcome := .failed e, cmds := [cmd_vrt, cmd_warp], fs := fs }
            | .ok outv =>
              let fs := fs.writeFile final_output (.physData outv)
              let fs := if env.cleanupFails then fs
                        else ((fs.removeFile input_list).removeFile vrt_file).rmdir temp_dir
              { outcome := .ok ("[DONE] " ++ datestr), cmds := [cmd_vrt, cmd_warp], fs := fs }
      | _, _ =>
        { outcome := .failed "ValueError: not in the subpath", cmds := [], fs := fs }

/-! ### Grouping by timestamp key -/

/-- One indexed granule row, as grouped by `main` (only the fields the
grouping consults are kept abstract here; `path` stands for the rest). -/
structure Granule where
  path : String
  datestr : String
  tile : String
deriving DecidableEq, Repr

/-- Lexicographic (code-point) comparison of character lists: the order
Python uses for `str` comparison and pandas for string sort keys. -/
def lexLe : List Char → List Char → Bool
  | [], _ => true
  | _ :: _, [] => false
  | a :: as, b :: bs =>
    if a < b then true
    else if b < a then false
    else lexLe as bs

/-- Python string `<=`. -/
def strLe (a b : String) : Bool := lexLe a.data b.data

/-- The distinct timestamp keys in ascending order: pandas `groupby`
yields sorted distinct keys, and both `main`s re-sort by key. -/
def groupKeys (rows : List Granule) : List String :=
  List.insertionSort (fun a b => strLe a b = true) (rows.map Granule.datestr).dedup

/-- `df.groupby("datestr")`, sorted by key: one Work Unit per distinct
timestamp key, each holding the rows bearing that key in input order. -/
def workUnits (rows : List Granule) : List (String × List Granule) :=
  (groupKeys rows).map (fun k => (k, rows.filter (fun g => g.datestr == k)))

/-- Work Units with member order forgotten, for order-independence
statements. -/
def unitsKeyed (rows : List Granule) : List (String × Multiset Granule) :=
  (workUnits rows).map (fun u => (u.1, (u.2 : Multiset Granule)))

/-! ### Result collection by the dispatchers -/

/-- Result collection loop of `main` in `mod16a2gf_hdf2global_nc_500m.py`:
`print(f.result())` with no exception handling, over completion order.
The first failed unit re-raises inside the loop; its error propagates and
the remaining outcomes are never printed.  Returns (printed outcomes,
propagated exception if any). -/
def collect_results_mod16 : List (Except String String) → List String × Option String
  | [] => ([], none)
  | .ok r :: rest =>
    let p := collect_results_mod16 rest
    (r :: p.1, p.2)
  | .error e :: _ => ([], some e)

/-- One unit's printed line in `pre_ET.py`'s collection loop
(`try: print(task.result()) except Exception as e: print(error line)`). -/
def render_preET : Except String String → String
  | .ok r => r
  | .error e => "[ERROR] processing failed: " ++ e

/-- Result collection loop of `main` in `pre_ET.py`: every unit's outcome
is printed, failures rendered as error lines, and the loop always
continues. -/
def collect_results_preET (rs : List (Except String String)) : List String :=
  rs.map render_preET

/-! ### Arithmetic facts about the calendar embedding -/

/-- `daysBeforeYear`, written without the truncated subtraction on the
argument, for `omega`-friendly reasoning. -/
theorem dBY_eq' (y : Nat) : daysBeforeYear (y + 1) + y / 100 = 365 * y + y / 4 + y / 400 := by
  unfold daysBeforeYear
  omega

/-- `daysBeforeYear` grows by one step. -/
theorem dBY_step (w : Nat) : daysBeforeYear w ≤ daysBeforeYear (w + 1) := by
  unfold daysBeforeYear
  have h : w + 1 - 1 = w := by omega
  rw [h]
  omega

/-- `daysBeforeYear` is monotone. -/
theorem dBY_mono (u v : Nat) (h : u ≤ v) : daysBeforeYear u ≤ daysBeforeYear v := by
  induction v with
  | zero =>
    have hu : u = 0 := by omega
    subst hu
    exact le_refl _
  | succ w ih =>
    rcases Nat.lt_or_ge u (w + 1) with h2 | h2
    · exact le_trans (ih (by omega)) (dBY_step w)
    · have h3 : u = w + 1 := by omega
      subst h3
      exact le_refl _

/-- Day-count bound for the `n1 = 4` correction branch of `ord2ymd`. -/
theorem branch1a_bound (a b c : Nat) (hb : b ≤ 3) (hc : c ≤ 23) :
    146097 * a + 36524 * b + 1461 * c + 1461 ≤
      daysBeforeYear (a * 400 + b * 100 + c * 4 + 4 + 1) := by
  have h4 : (a * 400 + b * 100 + c * 4 + 4) / 4 = 100 * a + 25 * b + c + 1 := by omega
  have h400 : (a * 400 + b * 100 + c * 4 + 4) / 400 = a := by omega
  have h100 : (a * 400 + b * 100 + c * 4 + 4) / 100 = 4 * a + b := by omega
  have h := dBY_eq' (a * 400 + b * 100 + c * 4 + 4)
  rw [h4, h400, h100] at h
  omega

/-- Day-count bound for the `n100 = 4` correction branch of `ord2ymd`. -/
theorem branch1b_bound (a : Nat) :
    146097 * a + 146097 ≤ daysBeforeYear (a * 400 + 4 * 100 + 1) := by
  have h4 : (a * 400 + 4 * 100) / 4 = 100 * a + 100 := by omega
  have h400 : (a * 400 + 4 * 100) / 400 = a + 1 := by omega
  have h100 : (a * 400 + 4 * 100) / 100 = 4 * a + 4 := by omega
  have h := dBY_eq' (a * 400 + 4 * 100)
  rw [h4, h400, h100] at h
  omega

/-- Day-count bound for the main branch of `ord2ymd`. -/
theorem branch2_bound (a b c d nr : Nat) (hb : b ≤ 3) (hc : c ≤ 24) (hd : d ≤ 3)
    (hnr : nr ≤ 364) :
    146097 * a + 36524 * b + 1461 * c + 365 * d + nr + 1 ≤
      daysBeforeYear (a * 400 + b * 100 + c * 4 + d + 1 + 1) := by
  have h := dBY_eq' (a * 400 + b * 100 + c * 4 + d + 1)
  by_cases hd3 : d = 3
  · subst hd3
    by_cases hc24 : c = 24
    · subst hc24
      by_cases hb3 : b = 3
      · subst hb3
        have h4 : (a * 400 + 3 * 100 + 24 * 4 + 3 + 1) / 4 = 100 * a + 100 := by omega
        have h400 : (a * 400 + 3 * 100 + 24 * 4 + 3 + 1) / 400 = a + 1 := by omega
        have h100 : (a * 400 + 3 * 100 + 24 * 4 + 3 + 1) / 100 = 4 * a + 4 := by omega
        rw [h4, h400, h100] at h
        omega
      · have h4 : (a * 400 + b * 100 + 24 * 4 + 3 + 1) / 4 = 100 * a + 25 * b + 25 := by omega
        have h400 : (a * 400 + b * 100 + 24 * 4 + 3 + 1) / 400 = a := by omega
        have h100 : (a * 400 + b * 100 + 24 * 4 + 3 + 1) / 100 = 4 * a + b + 1 := by omega
        rw [h4, h400, h100] at h
        omega
    · have h4 : (a * 400 + b * 100 + c * 4 + 3 + 1) / 4 = 100 * a + 25 * b + c + 1 := by omega
      have h400 : (a * 400 + b * 100 + c * 4 + 3 + 1) / 400 = a := by omega
      have h100 : (a * 400 + b * 100 + c * 4 + 3 + 1) / 100 = 4 * a + b := by omega
      rw [h4, h400, h100] at h
      omega
  · have h4 : (a * 400 + b * 100 + c * 4 + d + 1) / 4 = 100 * a + 25 * b + c := by omega
    have h400 : (a * 400 + b * 100 + c * 4 + d + 1) / 400 = a := by omega
    have h100 : (a * 400 + b * 100 + c * 4 + d + 1) / 100 = 4 * a + b := by omega
    rw [h4, h400, h100] at h
    omega

/-- An ordinal is never past December 31 of the year `ord2ymd` assigns it. -/
theorem ord2ymd_le_dec31 (o : Nat) (ho : 1 ≤ o) : o ≤ daysBeforeYear ((ord2ymd o).1 + 1) := by
  unfold ord2ymd
  dsimp only
  generalize ha : (o - 1) / 146097 = a
  generalize hb : (o - 1) % 146097 / 36524 = b
  generalize hc : (o - 1) % 146097 % 36524 / 1461 = c
  generalize hd : (o - 1) % 146097 % 36524 % 1461 / 365 = d
  generalize hnr : (o - 1) % 146097 % 36524 % 1461 % 365 = nr
  split
  case isTrue h =>
    dsimp only
    rcases h with h4 | h100
    · subst h4
      have hfacts : nr = 0 ∧ c ≤ 23 ∧ b ≤ 3 ∧
          o = 146097 * a + 36524 * b + 1461 * c + 1461 := by omega
      have harg : a * 400 + b * 100 + c * 4 + 4 + 1 - 1 + 1 =
          a * 400 + b * 100 + c * 4 + 4 + 1 := by omega
      rw [harg]
      exact le_trans (by omega) (branch1a_bound a b c hfacts.2.2.1 hfacts.2.1)
    · subst h100
      have hfacts : nr = 0 ∧ c = 0 ∧ d = 0 ∧ o = 146097 * a + 146097 := by omega
      obtain ⟨h1, h2, h3, h4⟩ := hfacts
      subst h2
      subst h3
      have harg : a * 400 + 4 * 100 + 0 * 4 + 0 + 1 - 1 + 1 = a * 400 + 4 * 100 + 1 := by omega
      rw [harg]
      exact le_trans (by omega) (branch1b_bound a)
  case isFalse h =>
    dsimp only
    have hfacts : b ≤ 3 ∧ c ≤ 24 ∧ d ≤ 3 ∧ nr ≤ 364 ∧
        o = 146097 * a + 36524 * b + 1461 * c + 365 * d + nr + 1 := by omega
    exact le_trans (by omega)
      (branch2_bound a b c d nr hfacts.1 hfacts.2.1 hfacts.2.2.1 hfacts.2.2.2.1)

/-- An ordinal strictly past December 31 of year `y` is assigned a year
greater than `y` by `ord2ymd`. -/
theorem ord2ymd_year_gt (y o : Nat) (ho : 1 ≤ o) (h : daysBeforeYear (y + 1) < o) :
    y < (ord2ymd o).1 := by
  by_contra hcon
  push_neg at hcon
  have h2 : daysBeforeYear ((ord2ymd o).1 + 1) ≤ daysBeforeYear (y + 1) :=
    dBY_mono _ _ (by omega)
  have h3 := ord2ymd_le_dec31 o ho
  omega


/-! ### Facts about the abstract filesystem and path strings -/

theorem str_ne_of_suffix_ne (p q s t : String) (hl : s.data.length = t.data.length)
    (hne : s ≠ t) : p ++ s ≠ q ++ t := by
  intro h
  apply hne
  have hd : (p ++ s).data = (q ++ t).data := congrArg String.data h
  rw [String.data_append, String.data_append] at hd
  exact String.ext ((List.append_inj' hd hl).2)

theorem lookupFile_writeFile_self (fs : FS) (p : String) (c : FileContent) :
    (fs.writeFile p c).lookupFile p = some c := by
  simp [FS.writeFile, FS.lookupFile, List.find?]

theorem find?_filter_ne (l : List (String × FileContent)) (p q : String) (h : q ≠ p) :
    (l.filter (fun e => e.1 != p)).find? (fun e => e.1 == q) =
      l.find? (fun e => e.1 == q) := by
  induction l with
  | nil => rfl
  | cons e l ih =>
    by_cases hep : e.1 = p
    · have h1 : (e.1 != p) = false := by simp [hep]
      have h2 : (e.1 == q) = false := by simp [hep]; exact fun hc => h hc.symm
      simp [List.filter_cons, h1, List.find?_cons, h2, ih]
    · have h1 : (e.1 != p) = true := by simp [hep]
      by_cases heq : e.1 = q
      · simp [List.filter_cons, h1, List.find?_cons, heq, h]
      · have h2 : (e.1 == q) = false := by simp [heq]
        simp [List.filter_cons, h1, List.find?_cons, h2, ih]

theorem lookupFile_writeFile_ne (fs : FS) (p : String) (c : FileContent) (q : String)
    (h : q ≠ p) : (fs.writeFile p c).lookupFile q = fs.lookupFile q := by
  have h2 : (p == q) = false := by simp; exact fun hc => h hc.symm
  simp only [FS.writeFile, FS.lookupFile, List.find?_cons, h2]
  rw [find?_filter_ne _ _ _ h]

theorem lookupFile_removeFile_ne (fs : FS) (p q : String) (h : q ≠ p) :
    (fs.removeFile p).lookupFile q = fs.lookupFile q := by
  simp only [FS.removeFile, FS.lookupFile]
  rw [find?_filter_ne _ _ _ h]

theorem lookupFile_mkdir (fs : FS) (d q : String) :
    (fs.mkdir d).lookupFile q = fs.lookupFile q := rfl

theorem lookupFile_rmdir (fs : FS) (d q : String) :
    (fs.rmdir d).lookupFile q = fs.lookupFile q := rfl

theorem ne_of_last7 (u v : String) (h : u.data.reverse.take 7 ≠ v.data.reverse.take 7) :
    u ≠ v := fun he => h (by rw [he])

theorem out_phys_ne_vrt (od d tr d' : String) : out_phys_path od d ≠ vrt_sinu_path tr d' := by
  apply ne_of_last7
  unfold out_phys_path vrt_sinu_path
  simp only [String.data_append, List.reverse_append, List.append_assoc]
  rw [List.take_append_of_le_length (by decide), List.take_append_of_le_length (by decide)]
  decide

/-- Claim C1, counterexample: in `pre_ET.py` the fill-value chain is a
Python `or`, so a legacy `missing_value` attribute equal to `0` (with no
`_FillValue` anywhere) resolves to the hardcoded fallback 32767, not to
the attribute's value — and behaviourally, raw pixel `0` is *not* masked
while raw `32767` is. -/
theorem C1_counterexample :
    resolveFill_preET none (some 0) none = 32767 ∧
    (32767 : ℚ) ≠ 0 ∧
    (apply_fill_and_scale_preET
        ⟨[("ET_500m", ⟨none, none, some 0, none, [0, 32767]⟩)]⟩).toOption =
      some ⟨[some 0, none], 1/10, 32767⟩ := by
  refine ⟨by decide, by norm_num, ?_⟩
  unfold apply_fill_and_scale_preET Dataset.find
  simp [List.find?, SDS_NAME, resolveFill_preET, pyOrQ, maskPixel, FALLBACK_SCALE,
    Except.toOption, Option.getD, Option.map]

/-- Claim C1, amended: in `mod16a2gf_hdf2global_nc_500m.py` the resolved
no-data value follows the first-PRESENT priority order
`_FillValue` → `missing_value` → encoding `_FillValue` → 32767 (a present
`missing_value` wins whatever its value, including 0); in `pre_ET.py` the
`or`-chain takes the first PRESENT AND NON-ZERO (truthy) candidate, so a
falsy candidate such as 0 falls through to the next level. -/
theorem C1_fill_precedence :
    (∀ v am ef, resolveFill_mod16 (some v) am ef = v) ∧
    (∀ v ef, resolveFill_mod16 none (some v) ef = v) ∧
    (∀ v, resolveFill_mod16 none none (some v) = v) ∧
    resolveFill_mod16 none none none = FALLBACK_FILL ∧
    (∀ v am ef, v ≠ 0 → resolveFill_preET (some v) am ef = v) ∧
    (∀ am ef, resolveFill_preET (some 0) am ef = resolveFill_preET none am ef) ∧
    (∀ v ef, v ≠ 0 → resolveFill_preET none (some v) ef = v) ∧
    (∀ ef, resolveFill_preET none (some 0) ef = resolveFill_preET none none ef) ∧
    (∀ v, v ≠ 0 → resolveFill_preET none none (some v) = v) ∧
    resolveFill_preET none none none = 32767 := by
  refine ⟨fun v am ef => rfl, fun v ef => rfl, fun v => rfl, rfl, ?_, ?_, ?_, ?_, ?_, rfl⟩
  · intro v am ef hv
    simp [resolveFill_preET, pyOrQ, hv]
  · intro am ef
    simp [resolveFill_preET, pyOrQ]
  · intro v ef hv
    simp [resolveFill_preET, pyOrQ, hv]
  · intro ef
    simp [resolveFill_preET, pyOrQ]
  · intro v hv
    simp [resolveFill_preET, pyOrQ, hv]

/-- Witness for `C1_fill_precedence` at concrete inputs. -/
theorem C1_witness :
    resolveFill_preET none (some 5) none = 5 ∧ resolveFill_mod16 none (some 0) none = 0 :=
  ⟨C1_fill_precedence.2.2.2.2.2.2.1 5 none (by norm_num), C1_fill_precedence.2.1 0 none⟩

/-- Claim C6, counterexample: with completion order
`[ok, error, ok]`, the result loop of `main` in
`mod16a2gf_hdf2global_nc_500m.py` (bare `print(f.result())`) reports only
the first outcome and propagates the exception: the third unit's outcome
is never reported, so one unit's failure does prevent the reporting of
the remaining units' outcomes. -/
theorem C6_counterexample :
    collect_results_mod16
        [.ok "[OK] A2021001", .error "CalledProcessError: gdalwarp", .ok "[OK] A2021009"] =
      (["[OK] A2021001"], some "CalledProcessError: gdalwarp") ∧
    ([.ok "[OK] A2021001", .error "CalledProcessError: gdalwarp",
      (.ok "[OK] A2021009" : Except String String)]).length = 3 :=
  ⟨rfl, rfl⟩

/-- Claim C6, amended: the `pre_ET.py` dispatcher reports every unit's
outcome individually (one line per unit, errors rendered and swallowed,
never blocking the rest); the `mod16a2gf` dispatcher reports outcomes
only up to the first failed unit, whose exception ends result collection
with the remaining outcomes unreported. -/
theorem C6_dispatcher_reporting :
    (∀ rs : List (Except String String), (collect_results_preET rs).length = rs.length) ∧
    (∀ (rs : List (Except String String)) (r : String),
      .ok r ∈ rs → r ∈ collect_results_preET rs) ∧
    (∀ (rs : List (Except String String)) (e : String),
      .error e ∈ rs → ("[ERROR] processing failed: " ++ e) ∈ collect_results_preET rs) ∧
    (∀ (pre post : List (Except String String)) (e : String),
      (∀ x ∈ pre, ∃ r, x = .ok r) →
      collect_results_mod16 (pre ++ .error e :: post) =
        (pre.map render_preET, some e)) := by
  refine ⟨fun rs => by simp [collect_results_preET], ?_, ?_, ?_⟩
  · intro rs r h
    exact List.mem_map.mpr ⟨.ok r, h, rfl⟩
  · intro rs e h
    exact List.mem_map.mpr ⟨.error e, h, rfl⟩
  · intro pre post e hpre
    induction pre with
    | nil => rfl
    | cons x pre' ih =>
      obtain ⟨r, hr⟩ := hpre x (by simp)
      subst hr
      simp only [List.cons_append, collect_results_mod16, List.map_cons, render_preET,
        List.append_eq]
      rw [ih (fun y hy => hpre y (by simp [hy]))]

/-- Witness for `C6_dispatcher_reporting` at a concrete completion list. -/
theorem C6_witness :
    collect_results_mod16 [.ok "a", .error "b"] = (["a"], some "b") := by
  have h := C6_dispatcher_reporting.2.2.2 [.ok "a"] [] "b"
    (fun x hx => ⟨"a", by simpa using hx⟩)
  simpa using h

theorem lexLe_cons_iff (a b : Char) (as bs : List Char) :
    lexLe (a :: as) (b :: bs) = true ↔ a < b ∨ (a = b ∧ lexLe as bs = true) := by
  by_cases h1 : a < b
  · simp [lexLe, h1]
  · by_cases h2 : b < a
    · have hne : ¬ a = b := fun he => by subst he; exact h1 h2
      simp [lexLe, h1, h2, hne]
    · have he : a = b := le_antisymm (le_of_not_lt h2) (le_of_not_lt h1)
      simp [lexLe, h1, h2, he]

theorem lexLe_total : ∀ as bs : List Char, lexLe as bs = true ∨ lexLe bs as = true := by
  intro as
  induction as with
  | nil => intro bs; left; rfl
  | cons a as ih =>
    intro bs
    cases bs with
    | nil => right; rfl
    | cons b bs =>
      rcases lt_trichotomy a b with h | h | h
      · left; rw [lexLe_cons_iff]; exact Or.inl h
      · subst h
        rcases ih bs with h2 | h2
        · left; rw [lexLe_cons_iff]; exact Or.inr ⟨rfl, h2⟩
        · right; rw [lexLe_cons_iff]; exact Or.inr ⟨rfl, h2⟩
      · right; rw [lexLe_cons_iff]; exact Or.inl h

theorem lexLe_trans : ∀ as bs cs : List Char,
    lexLe as bs = true → lexLe bs cs = true → lexLe as cs = true := by
  intro as
  induction as with
  | nil => intro bs cs _ _; rfl
  | cons a as ih =>
    intro bs cs hab hbc
    cases bs with
    | nil => simp [lexLe] at hab
    | cons b bs =>
      cases cs with
      | nil => simp [lexLe] at hbc
      | cons c cs =>
        rw [lexLe_cons_iff] at hab hbc ⊢
        rcases hab with h1 | ⟨h1, h1r⟩
        · rcases hbc with h2 | ⟨h2, h2r⟩
          · exact Or.inl (lt_trans h1 h2)
          · subst h2; exact Or.inl h1
        · subst h1
          rcases hbc with h2 | ⟨h2, h2r⟩
          · exact Or.inl h2
          · subst h2; exact Or.inr ⟨rfl, ih bs cs h1r h2r⟩

theorem lexLe_antisymm : ∀ as bs : List Char,
    lexLe as bs = true → lexLe bs as = true → as = bs := by
  intro as
  induction as with
  | nil =>
    intro bs _ hba
    cases bs with
    | nil => rfl
    | cons b bs => simp [lexLe] at hba
  | cons a as ih =>
    intro bs hab hba
    cases bs with
    | nil => simp [lexLe] at hab
    | cons b bs =>
      rw [lexLe_cons_iff] at hab hba
      rcases hab with h1 | ⟨h1, h1r⟩
      · rcases hba with h2 | ⟨h2, h2r⟩
        · exact absurd h2 (lt_asymm h1)
        · subst h2; exact absurd h1 (lt_irrefl _)
      · subst h1
        rcases hba with h2 | ⟨h2, h2r⟩
        · exact absurd h2 (lt_irrefl _)
        · rw [ih bs h1r h2r]


def c5rows : List Granule :=
  [⟨"a.hdf", "A2021001", "h08v05"⟩, ⟨"b.hdf", "A2021001", "h09v05"⟩,
   ⟨"c.hdf", "A2021001", "h10v05"⟩, ⟨"d.hdf", "A2021001", "h11v05"⟩,
   ⟨"e.hdf", "A2021009", "h08v05"⟩, ⟨"f.hdf", "A2021009", "h09v05"⟩,
   ⟨"g.hdf", "A2021009", "h10v05"⟩, ⟨"h.hdf", "A2021009", "h11v05"⟩]

/-- Claim C5: grouping the index by timestamp key yields exactly one Work
Unit per distinct key, each containing exactly the granules bearing that
key; the resulting set of Work Units is invariant under permutation of
the input discovery order; and the four-tiles-times-two-dates example
yields exactly two units of four granules each. -/
theorem C5_grouping :
    (∀ rows : List Granule,
      (workUnits rows).map Prod.fst = groupKeys rows ∧
      (groupKeys rows).Nodup ∧
      (∀ k, k ∈ groupKeys rows ↔ k ∈ rows.map Granule.datestr) ∧
      (∀ u ∈ workUnits rows, u.2 = rows.filter (fun g => g.datestr == u.1))) ∧
    (∀ rows rows' : List Granule, rows.Perm rows' → unitsKeyed rows = unitsKeyed rows') ∧
    workUnits c5rows =
      [("A2021001",
        [⟨"a.hdf", "A2021001", "h08v05"⟩, ⟨"b.hdf", "A2021001", "h09v05"⟩,
         ⟨"c.hdf", "A2021001", "h10v05"⟩, ⟨"d.hdf", "A2021001", "h11v05"⟩]),
       ("A2021009",
        [⟨"e.hdf", "A2021009", "h08v05"⟩, ⟨"f.hdf", "A2021009", "h09v05"⟩,
         ⟨"g.hdf", "A2021009", "h10v05"⟩, ⟨"h.hdf", "A2021009", "h11v05"⟩])] := by
  refine ⟨?_, ?_, ?_⟩
  · intro rows
    refine ⟨?_, ?_, ?_, ?_⟩
    · simp [workUnits, List.map_map, Function.comp_def]
    · unfold groupKeys
      exact ((List.perm_insertionSort _ _).nodup_iff).mpr (List.nodup_dedup _)
    · intro k
      unfold groupKeys
      rw [List.Perm.mem_iff (List.perm_insertionSort _ _), List.mem_dedup]
    · intro u hu
      obtain ⟨k, hk, rfl⟩ := List.mem_map.mp hu
      rfl
  · intro rows rows' hp
    haveI : IsTotal String (fun a b => strLe a b = true) :=
      ⟨fun a b => lexLe_total a.data b.data⟩
    haveI : IsTrans String (fun a b => strLe a b = true) :=
      ⟨fun a b c hab hbc => lexLe_trans a.data b.data c.data hab hbc⟩
    haveI : IsAntisymm String (fun a b => strLe a b = true) :=
      ⟨fun a b h1 h2 => String.ext (lexLe_antisymm a.data b.data h1 h2)⟩
    have hk : groupKeys rows = groupKeys rows' := by
      have hperm : (groupKeys rows).Perm (groupKeys rows') :=
        (List.perm_insertionSort _ _).trans
          (((hp.map Granule.datestr).dedup).trans (List.perm_insertionSort _ _).symm)
      exact List.eq_of_perm_of_sorted hperm
        (List.sorted_insertionSort (fun a b : String => strLe a b = true) _)
        (List.sorted_insertionSort (fun a b : String => strLe a b = true) _)
    unfold unitsKeyed workUnits
    rw [hk]
    simp only [List.map_map]
    apply List.map_congr_left
    intro k hk2
    simp only [Function.comp_apply]
    congr 1
    exact Multiset.coe_eq_coe.mpr (hp.filter _)
  · decide

/-- Witness for `C5_grouping` on a concrete permutation. -/
theorem C5_witness :
    unitsKeyed [⟨"a.hdf", "A2021001", "h08v05"⟩, ⟨"e.hdf", "A2021009", "h08v05"⟩] =
      unitsKeyed [⟨"e.hdf", "A2021009", "h08v05"⟩, ⟨"a.hdf", "A2021001", "h08v05"⟩] :=
  C5_grouping.2.1 _ _ (by decide)

/-- Claim C2: in the physical-value pass of both scripts, a raw pixel
equal to the resolved no-data value is mapped to `none` (NaN) and is
never multiplied by the scale factor, while every other raw pixel is
multiplied by the scale factor; concretely, raw 500 with scale 0.1 and
no-data 32767 yields 50, and raw 32767 yields no-data, never 3276.7. -/
theorem C2_scale_and_mask :
    (∀ ds da out, ds.find SDS_NAME = some da → apply_fill_and_scale ds = .ok out →
      out.data = da.data.map (maskPixel out.fill_used out.scale_applied) ∧
      ∀ i (h1 : i < da.data.length) (h2 : i < out.data.length),
        (da.data[i] = out.fill_used → out.data[i] = none) ∧
        (da.data[i] ≠ out.fill_used →
          out.data[i] = some (da.data[i] * out.scale_applied))) ∧
    (∀ ds da out, ds.find SDS_NAME = some da → apply_fill_and_scale_preET ds = .ok out →
      out.data = da.data.map (maskPixel out.fill_used out.scale_applied) ∧
      ∀ i (h1 : i < da.data.length) (h2 : i < out.data.length),
        (da.data[i] = out.fill_used → out.data[i] = none) ∧
        (da.data[i] ≠ out.fill_used →
          out.data[i] = some (da.data[i] * out.scale_applied))) ∧
    (apply_fill_and_scale ⟨[("ET_500m", ⟨none, none, none, none, [500, 32767]⟩)]⟩).toOption =
      some ⟨[some 50, none], 1/10, 32767⟩ ∧
    (apply_fill_and_scale_preET
        ⟨[("ET_500m", ⟨none, none, none, none, [500, 32767]⟩)]⟩).toOption =
      some ⟨[some 50, none], 1/10, 32767⟩ := by
  refine ⟨?_, ?_, ?_, ?_⟩
  · intro ds da out hfind happ
    unfold apply_fill_and_scale at happ
    rw [hfind] at happ
    simp only [Except.ok.injEq] at happ
    subst happ
    refine ⟨rfl, ?_⟩
    intro i h1 h2
    constructor
    · intro hfill
      simp only [List.getElem_map, maskPixel, hfill, if_pos]
    · intro hfill
      simp only [List.getElem_map, maskPixel] at hfill ⊢
      rw [if_neg hfill]
  · intro ds da out hfind happ
    unfold apply_fill_and_scale_preET at happ
    rw [hfind] at happ
    simp only [Except.ok.injEq] at happ
    subst happ
    refine ⟨rfl, ?_⟩
    intro i h1 h2
    constructor
    · intro hfill
      simp only [List.getElem_map, maskPixel, hfill, if_pos]
    · intro hfill
      simp only [List.getElem_map, maskPixel] at hfill ⊢
      rw [if_neg hfill]
  · unfold apply_fill_and_scale Dataset.find
    simp [List.find?, SDS_NAME, resolveFill_mod16, maskPixel, FALLBACK_SCALE, FALLBACK_FILL,
      Except.toOption, Option.getD, Option.map]
    norm_num
  · unfold apply_fill_and_scale_preET Dataset.find
    simp [List.find?, SDS_NAME, resolveFill_preET, pyOrQ, maskPixel, FALLBACK_SCALE,
      Except.toOption, Option.getD, Option.map]
    norm_num

/-- Witness for `C2_scale_and_mask` at a concrete dataset. -/
theorem C2_witness :
    (⟨[some 50, none], 1/10, 32767⟩ : OutVar).data =
      [(500 : ℚ), 32767].map (maskPixel 32767 (1/10)) := by
  have h := (C2_scale_and_mask.1 ⟨[("ET_500m", ⟨none, none, none, none, [500, 32767]⟩)]⟩
      ⟨none, none, none, none, [500, 32767]⟩ ⟨[some 50, none], 1/10, 32767⟩ rfl ?_).1
  · exact h
  · unfold apply_fill_and_scale Dataset.find
    simp [List.find?, SDS_NAME, resolveFill_mod16, maskPixel, FALLBACK_SCALE, FALLBACK_FILL,
      Option.getD, Option.map]
    norm_num

/-- Claim C3: when a Work Unit's final output file already exists, both
pipelines return the skipped outcome immediately: no external command is
issued, the file table is left exactly as it was (no intermediate file is
created and the existing final output's content is untouched); only
directory creation (`mkdir(exist_ok=True)`) has happened. -/
theorem C3_skip_when_output_exists :
    (∀ (fs0 : FS) (d1 d2 : String), ((fs0.mkdir d1).mkdir d2).files = fs0.files) ∧
    (∀ (env : ToolEnv) (datestr : String) (tilePaths : List String)
       (out_dir tmp_root : String) (fs0 : FS),
      (fs0.lookupFile (out_phys_path out_dir datestr)).isSome = true →
      process_one_datestr env datestr tilePaths out_dir tmp_root fs0 =
        { outcome := .skipped ("[SKIP] " ++ datestr ++ " phys exists"), cmds := [],
          fs := (fs0.mkdir out_dir).mkdir tmp_root }) ∧
    (∀ (env : ToolEnv) (datestr : String) (tilePaths : List String)
       (output_dir temp_root : String) (fs0 : FS),
      (fs0.lookupFile (preET_final_path output_dir datestr)).isSome = true →
      process_one_date env datestr tilePaths output_dir temp_root fs0 =
        { outcome := .skipped ("[SKIP] " ++ datestr), cmds := [],
          fs := (fs0.mkdir output_dir).mkdir (temp_root ++ "/" ++ datestr) }) := by
  refine ⟨fun fs0 d1 d2 => rfl, ?_, ?_⟩
  · intro env datestr tilePaths out_dir tmp_root fs0 h
    unfold process_one_datestr
    have h2 : (((fs0.mkdir out_dir).mkdir tmp_root).lookupFile
        (out_phys_path out_dir datestr)).isSome = true := h
    simp only [h2, if_true]
  · intro env datestr tilePaths output_dir temp_root fs0 h
    unfold process_one_date
    have h2 : (((fs0.mkdir output_dir).mkdir (temp_root ++ "/" ++ datestr)).lookupFile
        (preET_final_path output_dir datestr)).isSome = true := h
    simp only [h2, if_true]

/-- Witness for `C3_skip_when_output_exists` at a concrete filesystem. -/
theorem C3_witness :
    (process_one_datestr ⟨0, 0, 0, 0, 0, ⟨[]⟩, false⟩ "A2021001" []
        "out" "tmp" ⟨[(out_phys_path "out" "A2021001", .blob 7)], []⟩).cmds = [] := by
  have h := C3_skip_when_output_exists.2.1 ⟨0, 0, 0, 0, 0, ⟨[]⟩, false⟩ "A2021001" []
    "out" "tmp" ⟨[(out_phys_path "out" "A2021001", .blob 7)], []⟩ (by decide)
  rw [h]


theorem out_phys_ne_ncsinu (od d tr d2 : String) :
    out_phys_path od d ≠ nc_sinu_path tr d2 := by
  apply ne_of_last7
  unfold out_phys_path nc_sinu_path
  simp only [String.data_append, List.reverse_append, List.append_assoc]
  rw [List.take_append_of_le_length (by decide), List.take_append_of_le_length (by decide)]
  decide

theorem out_phys_ne_raw (od d od2 d2 : String) :
    out_phys_path od d ≠ out_raw_path od2 d2 := by
  apply ne_of_last7
  unfold out_phys_path out_raw_path
  simp only [String.data_append, List.reverse_append, List.append_assoc]
  rw [List.take_append_of_le_length (by decide), List.take_append_of_le_length (by decide)]
  decide

theorem preET_final_ne_list (od d tr d2 : String) :
    preET_final_path od d ≠ preET_list_path tr d2 := by
  apply ne_of_last7
  unfold preET_final_path preET_list_path
  simp only [String.data_append, List.reverse_append, List.append_assoc]
  rw [List.take_append_of_le_length (by decide), List.take_append_of_le_length (by decide)]
  decide

theorem preET_final_ne_vrt (od d tr d2 : String) :
    preET_final_path od d ≠ preET_vrt_path tr d2 := by
  apply ne_of_last7
  unfold preET_final_path preET_vrt_path
  simp only [String.data_append, List.reverse_append, List.append_assoc]
  rw [List.take_append_of_le_length (by decide), List.take_append_of_le_length (by decide)]
  decide

theorem preET_final_ne_raw (od d od2 d2 : String) :
    preET_final_path od d ≠ preET_raw_path od2 d2 := by
  apply ne_of_last7
  unfold preET_final_path preET_raw_path
  simp only [String.data_append, List.reverse_append, List.append_assoc]
  rw [List.take_append_of_le_length (by decide), List.take_append_of_le_length (by decide)]
  decide

/-- Claim C8, counterexample: `pre_ET.py` builds its mosaic with
`gdalbuildvrt -overwrite -input_file_list ...` — the invocation carries no
`-resolution`/`highest` option at all (the tool default applies), so the
claim that the mosaic tool is always invoked with the finest-resolution
option is false for this Work Unit. -/
theorem C8_counterexample :
    (process_one_date ⟨1, 0, 0, 0, 0, ⟨[]⟩, false⟩ "A2021001"
        ["rawdata/MOD16A2GF.A2021001.h10v05.061.1.hdf"] "out" "rawdata/_tmp"
        ⟨[], []⟩).cmds =
      [["gdalbuildvrt", "-overwrite", "-input_file_list",
        "_tmp/A2021001/file_list.txt", "_tmp/A2021001/A2021001_ET_500m.vrt"]] ∧
    "-resolution" ∉ ["gdalbuildvrt", "-overwrite", "-input_file_list",
        "_tmp/A2021001/file_list.txt", "_tmp/A2021001/A2021001_ET_500m.vrt"] ∧
    "highest" ∉ ["gdalbuildvrt", "-overwrite", "-input_file_list",
        "_tmp/A2021001/file_list.txt", "_tmp/A2021001/A2021001_ET_500m.vrt"] := by
  refine ⟨?_, by decide, by decide⟩
  decide


/-- Claim C7: in both scripts, when the expected variable is absent from
the reprojected dataset, the physical-value pass raises a `KeyError`
naming the variable, the Work Unit fails with that error, and no final
output file is written for the timestamp. -/
theorem C7_missing_variable :
    (∀ (env : ToolEnv) (datestr : String) (tilePaths : List String)
       (out_dir tmp_root : String) (fs0 : FS),
      fs0.lookupFile (out_phys_path out_dir datestr) = none →
      env.vrtExit = 0 → env.translateExit = 0 → env.warpExit = 0 →
      env.warpDataset.find SDS_NAME = none →
      (process_one_datestr env datestr tilePaths out_dir tmp_root fs0).outcome =
        .failed ("Cannot find variable " ++ SDS_NAME ++ ". Available: " ++
          toString (env.warpDataset.vars.map Prod.fst)) ∧
      (process_one_datestr env datestr tilePaths out_dir tmp_root fs0).fs.lookupFile
        (out_phys_path out_dir datestr) = none) ∧
    (∀ (env : ToolEnv) (datestr p0 : String) (rest : List String)
       (output_dir temp_root : String) (fs0 : FS) (relList relVrt : String),
      fs0.lookupFile (preET_final_path output_dir datestr) = none →
      relativeTo (preET_list_path temp_root datestr) (parentDir p0) = some relList →
      relativeTo (preET_vrt_path temp_root datestr) (parentDir p0) = some relVrt →
      env.vrtExit = 0 → env.warpExit = 0 →
      env.warpDataset.find SDS_NAME = none →
      (process_one_date env datestr (p0 :: rest) output_dir temp_root fs0).outcome =
        .failed ("KeyError: " ++ SDS_NAME) ∧
      (process_one_date env datestr (p0 :: rest) output_dir temp_root fs0).fs.lookupFile
        (preET_final_path output_dir datestr) = none) := by
  constructor
  · intro env datestr tilePaths out_dir tmp_root fs0 h hv ht hw hfind
    have happly : apply_fill_and_scale env.warpDataset =
        .error ("Cannot find variable " ++ SDS_NAME ++ ". Available: " ++
          toString (env.warpDataset.vars.map Prod.fst)) := by
      unfold apply_fill_and_scale
      rw [hfind]
    have hskip : (((fs0.mkdir out_dir).mkdir tmp_root).lookupFile
        (out_phys_path out_dir datestr)).isSome = false := by
      rw [lookupFile_mkdir, lookupFile_mkdir, h]
      rfl
    unfold process_one_datestr
    dsimp only
    rw [hskip, hv, ht, hw, happly]
    simp only [Bool.false_eq_true, if_false, ne_eq, not_true_eq_false, if_neg,
      not_false_eq_true]
    refine ⟨trivial, ?_⟩
    rw [lookupFile_writeFile_ne _ _ _ _ (out_phys_ne_raw out_dir datestr out_dir datestr),
      lookupFile_writeFile_ne _ _ _ _ (out_phys_ne_ncsinu out_dir datestr tmp_root datestr),
      lookupFile_writeFile_ne _ _ _ _ (out_phys_ne_vrt out_dir datestr tmp_root datestr),
      lookupFile_mkdir, lookupFile_mkdir, lookupFile_mkdir, h]
  · intro env datestr p0 rest output_dir temp_root fs0 relList relVrt h hrl hrv hv hw hfind
    have happly : apply_fill_and_scale_preET env.warpDataset =
        .error ("KeyError: " ++ SDS_NAME) := by
      unfold apply_fill_and_scale_preET
      rw [hfind]
    have hskip : (((fs0.mkdir output_dir).mkdir (temp_root ++ "/" ++ datestr)).lookupFile
        (preET_final_path output_dir datestr)).isSome = false := by
      rw [lookupFile_mkdir, lookupFile_mkdir, h]
      rfl
    unfold process_one_date
    dsimp only
    rw [hskip, hrl, hrv, hv, hw, happly]
    simp only [Bool.false_eq_true, if_false, ne_eq, not_true_eq_false, if_neg,
      not_false_eq_true]
    refine ⟨trivial, ?_⟩
    rw [lookupFile_writeFile_ne _ _ _ _ (preET_final_ne_raw output_dir datestr output_dir datestr),
      lookupFile_writeFile_ne _ _ _ _ (preET_final_ne_vrt output_dir datestr temp_root datestr),
      lookupFile_writeFile_ne _ _ _ _ (preET_final_ne_list output_dir datestr temp_root datestr),
      lookupFile_mkdir, lookupFile_mkdir, h]

/-- Claim C8, amended: the 500 m script invokes the mosaic tool as
`gdalbuildvrt -overwrite -resolution highest` over the unit's per-tile
subdataset references, and a non-zero exit aborts the Work Unit with
nothing written; `pre_ET.py` also aborts on a non-zero mosaic exit (final
output unwritten), but its invocation uses `-input_file_list` with no
resolution option. -/
theorem C8_mosaic_invocation :
    (∀ (env : ToolEnv) (datestr : String) (tilePaths : List String)
       (out_dir tmp_root : String) (fs0 : FS),
      fs0.lookupFile (out_phys_path out_dir datestr) = none →
      (process_one_datestr env datestr tilePaths out_dir tmp_root fs0).cmds.headD [] =
        ["gdalbuildvrt", "-overwrite", "-resolution", "highest",
          vrt_sinu_path tmp_root datestr] ++ tilePaths.map sds_path) ∧
    (∀ (env : ToolEnv) (datestr : String) (tilePaths : List String)
       (out_dir tmp_root : String) (fs0 : FS),
      fs0.lookupFile (out_phys_path out_dir datestr) = none →
      env.vrtExit ≠ 0 →
      process_one_datestr env datestr tilePaths out_dir tmp_root fs0 =
        { outcome := .failed "CalledProcessError: gdalbuildvrt",
          cmds := [["gdalbuildvrt", "-overwrite", "-resolution", "highest",
            vrt_sinu_path tmp_root datestr] ++ tilePaths.map sds_path],
          fs := ((fs0.mkdir out_dir).mkdir tmp_root).mkdir (tmp_root ++ "/" ++ datestr) }) ∧
    (∀ (env : ToolEnv) (datestr p0 : String) (rest : List String)
       (output_dir temp_root : String) (fs0 : FS) (relList relVrt : String),
      fs0.lookupFile (preET_final_path output_dir datestr) = none →
      relativeTo (preET_list_path temp_root datestr) (parentDir p0) = some relList →
      relativeTo (preET_vrt_path temp_root datestr) (parentDir p0) = some relVrt →
      env.vrtExit ≠ 0 →
      (process_one_date env datestr (p0 :: rest) output_dir temp_root fs0).outcome =
        .failed "CalledProcessError: gdalbuildvrt" ∧
      (process_one_date env datestr (p0 :: rest) output_dir temp_root fs0).cmds =
        [["gdalbuildvrt", "-overwrite", "-input_file_list", relList, relVrt]] ∧
      (process_one_date env datestr (p0 :: rest) output_dir temp_root fs0).fs.lookupFile
        (preET_final_path output_dir datestr) = none) := by
  refine ⟨?_, ?_, ?_⟩
  · intro env datestr tilePaths out_dir tmp_root fs0 h
    have hskip : (((fs0.mkdir out_dir).mkdir tmp_root).lookupFile
        (out_phys_path out_dir datestr)).isSome = false := by
      rw [lookupFile_mkdir, lookupFile_mkdir, h]
      rfl
    unfold process_one_datestr
    dsimp only
    rw [hskip]
    simp only [Bool.false_eq_true, if_false]
    split
    · rfl
    · split
      · rfl
      · split
        · rfl
        · split <;> rfl
  · intro env datestr tilePaths out_dir tmp_root fs0 h hv
    have hskip : (((fs0.mkdir out_dir).mkdir tmp_root).lookupFile
        (out_phys_path out_dir datestr)).isSome = false := by
      rw [lookupFile_mkdir, lookupFile_mkdir, h]
      rfl
    unfold process_one_datestr
    dsimp only
    rw [hskip]
    simp only [Bool.false_eq_true, if_false]
    rw [if_pos hv]
  · intro env datestr p0 rest output_dir temp_root fs0 relList relVrt h hrl hrv hv
    have hskip : (((fs0.mkdir output_dir).mkdir (temp_root ++ "/" ++ datestr)).lookupFile
        (preET_final_path output_dir datestr)).isSome = false := by
      rw [lookupFile_mkdir, lookupFile_mkdir, h]
      rfl
    unfold process_one_date
    dsimp only
    rw [hskip, hrl, hrv]
    simp only [Bool.false_eq_true, if_false]
    rw [if_pos hv]
    refine ⟨rfl, rfl, ?_⟩
    rw [lookupFile_writeFile_ne _ _ _ _ (preET_final_ne_list output_dir datestr temp_root datestr),
      lookupFile_mkdir, lookupFile_mkdir, h]

/-- Claim C9: in both scripts, a cleanup failure (modelled by
`cleanupFails`, covering the caught exception of the `try/except: pass`
block) never changes the unit's outcome — the unit still returns its
success message — and the already-written final output file's content is
identical whether or not cleanup succeeded, since cleanup only removes
the intermediate files and temp directory. -/
theorem C9_cleanup_swallowed :
    (∀ (env : ToolEnv) (datestr : String) (tilePaths : List String)
       (out_dir tmp_root : String) (fs0 : FS) (outv : OutVar) (b : Bool),
      fs0.lookupFile (out_phys_path out_dir datestr) = none →
      env.vrtExit = 0 → env.translateExit = 0 → env.warpExit = 0 →
      apply_fill_and_scale env.warpDataset = .ok outv →
      (process_one_datestr { env with cleanupFails := b } datestr tilePaths out_dir tmp_root
          fs0).outcome =
        .ok ("[OK] " ++ datestr ++ " -> " ++ baseName (out_phys_path out_dir datestr)) ∧
      (process_one_datestr { env with cleanupFails := b } datestr tilePaths out_dir tmp_root
          fs0).fs.lookupFile (out_phys_path out_dir datestr) = some (.physData outv)) ∧
    (∀ (env : ToolEnv) (datestr p0 : String) (rest : List String)
       (output_dir temp_root : String) (fs0 : FS) (outv : OutVar) (relList relVrt : String)
       (b : Bool),
      fs0.lookupFile (preET_final_path output_dir datestr) = none →
      relativeTo (preET_list_path temp_root datestr) (parentDir p0) = some relList →
      relativeTo (preET_vrt_path temp_root datestr) (parentDir p0) = some relVrt →
      env.vrtExit = 0 → env.warpExit = 0 →
      apply_fill_and_scale_preET env.warpDataset = .ok outv →
      (process_one_date { env with cleanupFails := b } datestr (p0 :: rest) output_dir
          temp_root fs0).outcome = .ok ("[DONE] " ++ datestr) ∧
      (process_one_date { env with cleanupFails := b } datestr (p0 :: rest) output_dir
          temp_root fs0).fs.lookupFile (preET_final_path output_dir datestr) =
        some (.physData outv)) := by
  constructor
  · intro env datestr tilePaths out_dir tmp_root fs0 outv b h hv ht hw happ
    have hskip : (((fs0.mkdir out_dir).mkdir tmp_root).lookupFile
        (out_phys_path out_dir datestr)).isSome = false := by
      rw [lookupFile_mkdir, lookupFile_mkdir, h]
      rfl
    unfold process_one_datestr
    dsimp only
    rw [hskip, hv, ht, hw, happ]
    simp only [Bool.false_eq_true, if_false, ne_eq, not_true_eq_false, if_neg,
      not_false_eq_true]
    refine ⟨trivial, ?_⟩
    cases b with
    | true =>
      simp only [if_true]
      rw [lookupFile_writeFile_self]
    | false =>
      simp only [Bool.false_eq_true, if_false]
      rw [lookupFile_rmdir,
        lookupFile_removeFile_ne _ _ _ (out_phys_ne_ncsinu out_dir datestr tmp_root datestr),
        lookupFile_removeFile_ne _ _ _ (out_phys_ne_vrt out_dir datestr tmp_root datestr),
        lookupFile_writeFile_self]
  · intro env datestr p0 rest output_dir temp_root fs0 outv relList relVrt b h hrl hrv hv hw happ
    have hskip : (((fs0.mkdir output_dir).mkdir (temp_root ++ "/" ++ datestr)).lookupFile
        (preET_final_path output_dir datestr)).isSome = false := by
      rw [lookupFile_mkdir, lookupFile_mkdir, h]
      rfl
    unfold process_one_date
    dsimp only
    rw [hskip, hrl, hrv, hv, hw, happ]
    simp only [Bool.false_eq_true, if_false, ne_eq, not_true_eq_false, if_neg,
      not_false_eq_true]
    refine ⟨trivial, ?_⟩
    cases b with
    | true =>
      simp only [if_true]
      rw [lookupFile_writeFile_self]
    | false =>
      simp only [Bool.false_eq_true, if_false]
      rw [lookupFile_rmdir,
        lookupFile_removeFile_ne _ _ _ (preET_final_ne_vrt output_dir datestr temp_root datestr),
        lookupFile_removeFile_ne _ _ _ (preET_final_ne_list output_dir datestr temp_root datestr),
        lookupFile_writeFile_self]


/-- Witness for `C7_missing_variable` at a concrete empty dataset. -/
theorem C7_witness :
    (process_one_datestr ⟨0, 0, 0, 1, 2, ⟨[]⟩, false⟩ "A2021001" [] "out" "tmp"
        ⟨[], []⟩).outcome =
      .failed ("Cannot find variable " ++ SDS_NAME ++ ". Available: " ++
        toString ((⟨[]⟩ : Dataset).vars.map Prod.fst)) ∧
    (process_one_datestr ⟨0, 0, 0, 1, 2, ⟨[]⟩, false⟩ "A2021001" [] "out" "tmp"
        ⟨[], []⟩).fs.lookupFile (out_phys_path "out" "A2021001") = none :=
  C7_missing_variable.1 ⟨0, 0, 0, 1, 2, ⟨[]⟩, false⟩ "A2021001" [] "out" "tmp" ⟨[], []⟩
    rfl rfl rfl rfl rfl

/-- Witness for `C8_mosaic_invocation` at a concrete failing mosaic. -/
theorem C8_witness :
    process_one_datestr ⟨1, 0, 0, 0, 0, ⟨[]⟩, false⟩ "A2021001"
        ["rawdata/MOD16A2GF.A2021001.h10v05.061.1.hdf"] "out" "tmp" ⟨[], []⟩ =
      { outcome := .failed "CalledProcessError: gdalbuildvrt",
        cmds := [["gdalbuildvrt", "-overwrite", "-resolution", "highest",
          vrt_sinu_path "tmp" "A2021001"] ++
          (["rawdata/MOD16A2GF.A2021001.h10v05.061.1.hdf"].map sds_path)],
        fs := (((⟨[], []⟩ : FS).mkdir "out").mkdir "tmp").mkdir ("tmp" ++ "/" ++ "A2021001") } :=
  C8_mosaic_invocation.2.1 ⟨1, 0, 0, 0, 0, ⟨[]⟩, false⟩ "A2021001"
    ["rawdata/MOD16A2GF.A2021001.h10v05.061.1.hdf"] "out" "tmp" ⟨[], []⟩ rfl (by decide)

/-- Witness for `C9_cleanup_swallowed` with cleanup failing. -/
theorem C9_witness :
    (process_one_datestr
        { (⟨0, 0, 0, 5, 6, ⟨[("ET_500m", ⟨none, none, none, none, []⟩)]⟩, false⟩ : ToolEnv) with
          cleanupFails := true } "A2021001" [] "out" "tmp" ⟨[], []⟩).outcome =
      .ok ("[OK] " ++ "A2021001" ++ " -> " ++ baseName (out_phys_path "out" "A2021001")) ∧
    (process_one_datestr
        { (⟨0, 0, 0, 5, 6, ⟨[("ET_500m", ⟨none, none, none, none, []⟩)]⟩, false⟩ : ToolEnv) with
          cleanupFails := true } "A2021001" [] "out" "tmp" ⟨[], []⟩).fs.lookupFile
      (out_phys_path "out" "A2021001") = some (.physData ⟨[], 1/10, 32767⟩) :=
  C9_cleanup_swallowed.1 ⟨0, 0, 0, 5, 6, ⟨[("ET_500m", ⟨none, none, none, none, []⟩)]⟩, false⟩
    "A2021001" [] "out" "tmp" ⟨[], []⟩ ⟨[], 1/10, 32767⟩ true rfl rfl rfl rfl rfl


theorem dBY_succ_le (y : Nat) : daysBeforeYear (y + 1) ≤ daysBeforeYear y + 366 := by
  unfold daysBeforeYear
  have h : y + 1 - 1 = y := by omega
  rw [h]
  omega

theorem branch2_lower (a b c d : Nat) (hb : b ≤ 3) (hc : c ≤ 24) (hd : d ≤ 3) :
    daysBeforeYear (a * 400 + b * 100 + c * 4 + d + 1) ≤
      146097 * a + 36524 * b + 1461 * c + 365 * d := by
  have h4 : (a * 400 + b * 100 + c * 4 + d) / 4 = 100 * a + 25 * b + c := by omega
  have h400 : (a * 400 + b * 100 + c * 4 + d) / 400 = a := by omega
  have h100 : (a * 400 + b * 100 + c * 4 + d) / 100 = 4 * a + b := by omega
  have h := dBY_eq' (a * 400 + b * 100 + c * 4 + d)
  rw [h4, h400, h100] at h
  omega

theorem branch1a_lower (a b c : Nat) (hb : b ≤ 3) (hc : c ≤ 23) :
    daysBeforeYear (a * 400 + b * 100 + c * 4 + 4) ≤
      146097 * a + 36524 * b + 1461 * c + 1460 := by
  have harg : a * 400 + b * 100 + c * 4 + 4 = a * 400 + b * 100 + c * 4 + 3 + 1 := by omega
  rw [harg]
  have h4 : (a * 400 + b * 100 + c * 4 + 3) / 4 = 100 * a + 25 * b + c := by omega
  have h400 : (a * 400 + b * 100 + c * 4 + 3) / 400 = a := by omega
  have h100 : (a * 400 + b * 100 + c * 4 + 3) / 100 = 4 * a + b := by omega
  have h := dBY_eq' (a * 400 + b * 100 + c * 4 + 3)
  rw [h4, h400, h100] at h
  omega

theorem branch1b_lower (a : Nat) :
    daysBeforeYear (a * 400 + 4 * 100) ≤ 146097 * a + 146096 := by
  have harg : a * 400 + 4 * 100 = a * 400 + 399 + 1 := by omega
  rw [harg]
  have h4 : (a * 400 + 399) / 4 = 100 * a + 99 := by omega
  have h400 : (a * 400 + 399) / 400 = a := by omega
  have h100 : (a * 400 + 399) / 100 = 4 * a + 3 := by omega
  have h := dBY_eq' (a * 400 + 399)
  rw [h4, h400, h100] at h
  omega

theorem ord2ymd_dec31_lt (o : Nat) (ho : 1 ≤ o) : daysBeforeYear ((ord2ymd o).1) < o := by
  unfold ord2ymd
  dsimp only
  generalize ha : (o - 1) / 146097 = a
  generalize hb : (o - 1) % 146097 / 36524 = b
  generalize hc : (o - 1) % 146097 % 36524 / 1461 = c
  generalize hd : (o - 1) % 146097 % 36524 % 1461 / 365 = d
  generalize hnr : (o - 1) % 146097 % 36524 % 1461 % 365 = nr
  split
  case isTrue h =>
    dsimp only
    rcases h with h4 | h100
    · subst h4
      have hfacts : nr = 0 ∧ c ≤ 23 ∧ b ≤ 3 ∧
          o = 146097 * a + 36524 * b + 1461 * c + 1461 := by omega
      have harg : a * 400 + b * 100 + c * 4 + 4 + 1 - 1 = a * 400 + b * 100 + c * 4 + 4 := by
        omega
      rw [harg]
      have hle := branch1a_lower a b c hfacts.2.2.1 hfacts.2.1
      omega
    · subst h100
      have hfacts : nr = 0 ∧ c = 0 ∧ d = 0 ∧ o = 146097 * a + 146097 := by omega
      obtain ⟨h1, h2, h3, h4⟩ := hfacts
      subst h2
      subst h3
      have harg : a * 400 + 4 * 100 + 0 * 4 + 0 + 1 - 1 = a * 400 + 4 * 100 := by omega
      rw [harg]
      have hle := branch1b_lower a
      omega
  case isFalse h =>
    dsimp only
    have hfacts : b ≤ 3 ∧ c ≤ 24 ∧ d ≤ 3 ∧ nr ≤ 364 ∧
        o = 146097 * a + 36524 * b + 1461 * c + 365 * d + nr + 1 := by omega
    have hle := branch2_lower a b c d hfacts.1 hfacts.2.1 hfacts.2.2.1
    omega

theorem ord2ymd_year_lt (y o : Nat) (ho : 1 ≤ o) (h : o ≤ daysBeforeYear y) :
    (ord2ymd o).1 < y := by
  by_contra hcon
  push_neg at hcon
  have h2 : daysBeforeYear y ≤ daysBeforeYear ((ord2ymd o).1) := dBY_mono _ _ hcon
  have h3 := ord2ymd_dec31_lt o ho
  omega

set_option maxRecDepth 4000 in
/-- Claim C4: whenever the parser succeeds, the derived acquisition date
is January 1 of the filename's year advanced by (day-of-year − 1) days
(ordinal arithmetic); in particular (2021, 1) yields 2021-01-01 and
(2020, 366) yields 2020-12-31, each also checked against the independent
one-day-at-a-time calendar successor `nextDay`. -/
theorem C4_date_derivation :
    (∀ (path name : String) (info : GranuleInfo),
      parse_mod16_name path name = .ok info →
      1 ≤ info.doy → info.doy ≤ 366 →
      info.dateYmd = ord2ymd (jan1Ordinal info.year + (info.doy - 1))) ∧
    parsedDate "p" "MOD16A2GF.A2021001.h10v05.061.2022293211312.hdf" = some "2021-01-01" ∧
    parsedYmd "p" "MOD16A2GF.A2021001.h10v05.061.2022293211312.hdf" =
      some (nextDay^[0] (2021, 1, 1)) ∧
    parsedDate "p" "MOD16A2GF.A2020366.h10v05.061.2022293211312.hdf" = some "2020-12-31" ∧
    parsedYmd "p" "MOD16A2GF.A2020366.h10v05.061.2022293211312.hdf" =
      some (nextDay^[365] (2020, 1, 1)) := by
  refine ⟨?_, by decide, by decide, by decide, by decide⟩
  intro path name info hp h1 h2
  unfold parse_mod16_name at hp
  cases hm : matchPAT name with
  | none =>
    rw [hm] at hp
    exact absurd hp (by simp)
  | some f =>
    rw [hm] at hp
    dsimp only at hp
    split at hp
    · exact absurd hp (by simp)
    · split at hp
      · exact absurd hp (by simp)
      · simp only [ParseOutcome.ok.injEq] at hp
        subst hp
        simp only [mkInfo] at h1 h2 ⊢
        have harg : jan1Ordinal f.year + (f.doy - 1) = daysBeforeYear f.year + f.doy := by
          unfold jan1Ordinal
          omega
        rw [harg]

set_option maxRecDepth 4000 in
/-- Witness for `C4_date_derivation` at (2020, 366). -/
theorem C4_witness :
    (⟨"p", 2020, 366, (2020, 12, 31), "2020-12-31", "A2020366", "h10v05", "061",
        "2022293211312"⟩ : GranuleInfo).dateYmd =
      ord2ymd (jan1Ordinal 2020 + (366 - 1)) :=
  C4_date_derivation.1 "p" "MOD16A2GF.A2020366.h10v05.061.2022293211312.hdf"
    ⟨"p", 2020, 366, (2020, 12, 31), "2020-12-31", "A2020366", "h10v05", "061",
      "2022293211312"⟩ (by decide) (by decide) (by decide)

set_option maxRecDepth 4000 in
/-- Claim C10, counterexample: the structurally matching filename with
day-of-year `000` (outside [1, 366]) parses successfully, but the derived
date is December 31 of the *previous* calendar year (2020-12-31 for an
A2021000 name), not a later one, so the claim's "overflows past
December 31 into a later calendar year" fails at this input. -/
theorem C10_counterexample :
    parse_mod16_name "p" "MOD16A2GF.A2021000.h10v05.061.2022293211312.hdf" =
      .ok ⟨"p", 2021, 0, (2020, 12, 31), "2020-12-31", "A2021000", "h10v05", "061",
        "2022293211312"⟩ ∧
    2020 < 2021 :=
  ⟨by decide, by decide⟩

/-- Claim C10, amended: the parser performs no day-of-year range
validation.  For every structurally matching name with year in [1, 9997]
and day-of-year in [367, 999], parsing succeeds and the derived date lies
in a strictly later calendar year than the filename's year field;
day-of-year `000` (for year ≥ 2) also parses, yielding December 31 of the
preceding year.  (Years putting the result outside Python's supported
date range instead raise, e.g. year 0000, or year 9999 with overflowing
day-of-year.) -/
theorem C10_no_doy_validation :
    (∀ (path name : String) (f : RawFields),
      matchPAT name = some f →
      1 ≤ f.year → f.year ≤ 9997 → 367 ≤ f.doy → f.doy ≤ 999 →
      parse_mod16_name path name = .ok (mkInfo path f (daysBeforeYear f.year + f.doy)) ∧
      f.year < (mkInfo path f (daysBeforeYear f.year + f.doy)).dateYmd.1) ∧
    (∀ (path name : String) (f : RawFields),
      matchPAT name = some f →
      f.doy = 0 → 2 ≤ f.year → f.year ≤ 9999 →
      parse_mod16_name path name = .ok (mkInfo path f (daysBeforeYear f.year)) ∧
      (mkInfo path f (daysBeforeYear f.year)).dateYmd.1 < f.year) := by
  constructor
  · intro path name f hm h1 h2 h3 h4
    have hy : ¬(f.year < 1 ∨ 9999 < f.year) := by omega
    have hmax : maxOrdinal = 3652059 := by decide
    have h9997 : daysBeforeYear 9997 = 3650964 := by decide
    have hmono := dBY_mono f.year 9997 (by omega)
    have ho : ¬(daysBeforeYear f.year + f.doy < 1 ∨
        maxOrdinal < daysBeforeYear f.year + f.doy) := by omega
    have hgt : f.year < (ord2ymd (daysBeforeYear f.year + f.doy)).1 := by
      apply ord2ymd_year_gt _ _ (by omega)
      have hsucc := dBY_succ_le f.year
      omega
    constructor
    · unfold parse_mod16_name
      rw [hm]
      dsimp only
      rw [if_neg hy, if_neg ho]
    · simpa only [mkInfo] using hgt
  · intro path name f hm hdoy h1 h2
    have hy : ¬(f.year < 1 ∨ 9999 < f.year) := by omega
    have hmax : maxOrdinal = 3652059 := by decide
    have h2v : daysBeforeYear 2 = 365 := by decide
    have hmono2 := dBY_mono 2 f.year (by omega)
    have hmono9 := dBY_mono f.year 9999 (by omega)
    have h9999 : daysBeforeYear 9999 = 3651694 := by decide
    have ho : ¬(daysBeforeYear f.year + f.doy < 1 ∨
        maxOrdinal < daysBeforeYear f.year + f.doy) := by omega
    have hlt : (ord2ymd (daysBeforeYear f.year)).1 < f.year :=
      ord2ymd_year_lt f.year (daysBeforeYear f.year) (by omega) (le_refl _)
    constructor
    · unfold parse_mod16_name
      rw [hm]
      dsimp only
      rw [if_neg hy, if_neg ho, hdoy, Nat.add_zero]
    · simpa only [mkInfo] using hlt

set_option maxRecDepth 4000 in
/-- Witness for `C10_no_doy_validation` at (2021, 400) → 2022-02-04. -/
theorem C10_witness :
    parse_mod16_name "p" "MOD16A2GF.A2021400.h10v05.061.2022293211312.hdf" =
      .ok (mkInfo "p" ⟨2021, 400, "h10v05", "061", "2022293211312"⟩
        (daysBeforeYear 2021 + 400)) ∧
    2021 < (mkInfo "p" ⟨2021, 400, "h10v05", "061", "2022293211312"⟩
        (daysBeforeYear 2021 + 400)).dateYmd.1 :=
  C10_no_doy_validation.1 "p" "MOD16A2GF.A2021400.h10v05.061.2022293211312.hdf"
    ⟨2021, 400, "h10v05", "061", "2022293211312"⟩ (by decide) (by decide) (by decide)
    (by decide) (by decide)


end Bedrock
